import Mathlib

/-!
Shallow embedding of `cmd/hello/main.go` (leepro/ok-go), a voice client for
the Google Assistant embedded v1alpha1 API.  The only component with internal
logic is the conversation coordinator in `start()`: it builds a configuration
message from the process-wide `conversationState` token (lines 84-100),
establishes a session, and runs a receive loop over response events
(lines 180-251).  External collaborators (gRPC transport, portaudio device)
are modelled as opaque successful operations; the stream of `Recv` results is
an explicit list; the playback device accepts every write.
-/

namespace OkGo

/-- Microphone-mode enum value `ConverseResult_CLOSE_MICROPHONE` (proto value 1). -/
def CLOSE_MICROPHONE : Nat := 1

/-- Microphone-mode enum value `ConverseResult_DIALOG_FOLLOW_ON` (proto value 2). -/
def DIALOG_FOLLOW_ON : Nat := 2

/-- Event-type enum value `ConverseResponse_END_OF_UTTERANCE` (proto value 1). -/
def END_OF_UTTERANCE : Nat := 1

/-- Embedding of `embedded.ConverseResult` as consumed by `start()`:
`GetSpokenRequestText`, `GetSpokenResponseText`, the `ConversationState`
byte slice (`nil` versus present, possibly empty, modelled by `Option`),
and `GetMicrophoneMode` (an enum held as its numeric value, defaulting
to 0 = `MICROPHONE_MODE_UNSPECIFIED` when absent). -/
structure ConverseResult where
  spokenRequestText : String
  spokenResponseText : String
  conversationState : Option (List Nat)
  microphoneMode : Nat
  deriving Repr, DecidableEq

/-- Embedding of `embedded.ConverseResponse` as consumed by `start()`:
the four getters `GetError`, `GetEventType`, `GetAudioOut` (its `AudioData`
bytes) and `GetResult`.  Each getter's "absent" answer (`nil`, or enum 0
for the event type) is representable, so any combination of present fields
can be examined, as the spec's data model for a Response Event requires. -/
structure ConverseResponse where
  error : Option String
  eventType : Nat
  audioOut : Option (List Nat)
  result : Option ConverseResult
  deriving Repr, DecidableEq

/-- One outcome of `conversation.Recv()`: a response, or a non-EOF stream
error.  End of stream (`io.EOF`) is the exhaustion of the list of items. -/
inductive RecvItem
  | ok (resp : ConverseResponse)
  | fail (msg : String)
  deriving Repr, DecidableEq

/-- How one `start()` receive loop ended (lines 180-251).
`eofEnd`: `err == io.EOF`, `break`, `start` returns (no prompt, no exit
call).  `exit0`: quit/exit transcript, `stop(true)` calls `os.Exit(0)`.
`fatal`: `log.Fatalf` on a `Recv` error or an error field, which calls
`os.Exit(1)`.  `eouEnd`: `END_OF_UTTERANCE`, mic stop signal then `return`
(no prompt).  `promptEnd`: `stop(false)`, which signals the mic, then calls
`askTheUser()` — the blocking press-a-key prompt — before a new turn. -/
inductive TurnEnd
  | eofEnd
  | exit0
  | fatal
  | eouEnd
  | promptEnd
  deriving Repr, DecidableEq

/-- Observable outcome of one receive loop: the final value of the global
`conversationState`, every playback frame written (in order), how many
press-a-key prompts were issued, how many times the mic stop signal was
sent, the way the loop ended, and how many stream items were consumed. -/
structure LoopResult where
  finalState : List Nat
  writes : List (List Nat)
  prompts : Nat
  micStops : Nat
  ending : TurnEnd
  consumed : Nat
  deriving Repr, DecidableEq

/-- Size in bytes of one playback frame: `bufOut` is `make([]int16, 8192)`
(line 168) and `binary.Read` fills all of it, two bytes per sample. -/
def frameBytes : Nat := 16384

/-- Embedding of the playback loop (lines 225-236): `binary.Read` fills the
8192-sample buffer from the remaining payload — failing without a device
write when fewer than `frameBytes` bytes remain — then `streamOut.Write()`
emits the frame.  The device is modelled as accepting every write.  Returns
the list of frames written, in payload order. -/
def playbackChunks (payload : List Nat) : List (List Nat) :=
  if h : payload.length < frameBytes then []
  else payload.take frameBytes :: playbackChunks (payload.drop frameBytes)
  termination_by payload.length
  decreasing_by
    simp only [List.length_drop]
    simp only [frameBytes] at h ⊢
    omega

/-- An item of the `Recv` stream is benign when it is a response without a
stream-level error, without an error field, and — when it has a result —
with a transcript other than "quit"/"exit" and a microphone mode other than
`CLOSE_MICROPHONE`: the kinds of item the temporal claim about loop
continuation quantifies over. -/
def benignItem : RecvItem → Bool
  | .fail _ => false
  | .ok e =>
    e.error.isNone &&
    (match e.result with
     | none => true
     | some r =>
       r.spokenRequestText != "quit" && r.spokenRequestText != "exit" &&
       r.microphoneMode != CLOSE_MICROPHONE)

/-- Among benign items, the ones at which the receive loop ends: an event
with a non-nil result that either is an `END_OF_UTTERANCE` event or carries
a microphone mode that is neither `CLOSE_MICROPHONE` nor `DIALOG_FOLLOW_ON`
(the unmanaged-mode `default` branch of the `switch` at lines 239-250).
A nil-result event is never terminal: the loop logs and continues. -/
def terminalItem : RecvItem → Bool
  | .fail _ => true
  | .ok e =>
    match e.result with
    | none => false
    | some r =>
      e.eventType == END_OF_UTTERANCE ||
      (r.microphoneMode != CLOSE_MICROPHONE && r.microphoneMode != DIALOG_FOLLOW_ON)

/-- Embedding of the receive loop of `start()` (lines 180-251), given the
current global `conversationState` and the stream of `Recv` outcomes.
Per iteration, in source order: `io.EOF` breaks; a `Recv` error or an error
field is `log.Fatalf` (process exits, code 1); a `nil` result logs and
continues; a transcript equal to "quit"/"exit" runs `stop(true)` (mic stop,
`os.Exit(0)`); a non-nil `ConversationState` overwrites the global token;
`END_OF_UTTERANCE` signals the mic and returns; an audio payload is played
frame by frame; then the microphone mode: `CLOSE_MICROPHONE` or any
unmanaged value runs `stop(false)` (mic stop, prompt), `DIALOG_FOLLOW_ON`
continues the loop. -/
def runLoop (state : List Nat) : List RecvItem → LoopResult
  | [] => ⟨state, [], 0, 0, .eofEnd, 0⟩
  | .fail _ :: _ => ⟨state, [], 0, 0, .fatal, 1⟩
  | .ok e :: rest =>
    match e.error with
    | some _ => ⟨state, [], 0, 0, .fatal, 1⟩
    | none =>
      match e.result with
      | none =>
        let r := runLoop state rest
        ⟨r.finalState, r.writes, r.prompts, r.micStops, r.ending, r.consumed + 1⟩
      | some result =>
        if result.spokenRequestText = "quit" ∨ result.spokenRequestText = "exit" then
          ⟨state, [], 0, 1, .exit0, 1⟩
        else
          let state1 := match result.conversationState with
            | some cs => cs
            | none => state
          if e.eventType = END_OF_UTTERANCE then
            ⟨state1, [], 0, 1, .eouEnd, 1⟩
          else
            let ws := match e.audioOut with
              | some payload => playbackChunks payload
              | none => []
            if result.microphoneMode = CLOSE_MICROPHONE then
              ⟨state1, ws, 1, 1, .promptEnd, 1⟩
            else if result.microphoneMode = DIALOG_FOLLOW_ON then
              let r := runLoop state1 rest
              ⟨r.finalState, ws ++ r.writes, r.prompts, r.micStops, r.ending, r.consumed + 1⟩
            else
              ⟨state1, ws, 1, 1, .promptEnd, 1⟩

/-- Embedding of `embedded.AudioInConfig` as built at lines 86-89. -/
structure AudioInConfig where
  encoding : String
  sampleRateHertz : Nat
  deriving Repr, DecidableEq

/-- Embedding of `embedded.AudioOutConfig` as built at lines 90-94. -/
structure AudioOutConfig where
  encoding : String
  sampleRateHertz : Nat
  volumePercentage : Nat
  deriving Repr, DecidableEq

/-- Embedding of `embedded.ConverseConfig` as built at lines 84-100:
the audio formats plus the optional `ConverseState` continuation token. -/
structure ConverseConfig where
  audioInConfig : AudioInConfig
  audioOutConfig : AudioOutConfig
  converseState : Option (List Nat)
  deriving Repr, DecidableEq

/-- Embedding of the configuration-message construction (lines 84-100):
fixed audio formats, and the continuation token attached exactly when
`len(conversationState) > 0`. -/
def buildConfig (conversationState : List Nat) : ConverseConfig :=
  { audioInConfig := ⟨"LINEAR16", 16000⟩
    audioOutConfig := ⟨"MP3", 16000, 60⟩
    converseState :=
      if conversationState.length > 0 then some conversationState else none }

/-- Which setup step of `start()` fails first, if any: `newConn` (line 76),
`assistant.Converse` (line 101), the initial config `Send` (line 108). -/
inductive SetupEvent
  | connFail
  | converseFail
  | sendFail
  | allOk
  deriving Repr, DecidableEq

/-- Outcome of the prologue of `start()` (lines 74-115), before the capture
goroutine is started at line 118.  `returnNoExit`: the path logs and executes
a plain `return` — no exit-status call.  `stopFalseThenExit1`: the path runs
`stop(false)` and only afterwards reaches its `os.Exit(1)` statement;
`stop(false)` begins with `micStopCh <- true` on the fresh unbuffered local
channel whose sole receiver, the capture goroutine of line 118, has not been
started on this path, and then calls `askTheUser()`, which recurses into
`start()`.  `proceed`: setup succeeded with the given configuration sent. -/
inductive SetupOutcome
  | returnNoExit
  | stopFalseThenExit1
  | proceed (config : ConverseConfig)
  deriving Repr, DecidableEq

/-- Embedding of the `start()` prologue (lines 74-115): connection failure
logs and returns (lines 77-80); `Converse` failure (lines 102-106) and config
`Send` failure (lines 111-115) run `stop(false)` before their `os.Exit(1)`;
otherwise the configuration built from the current token is sent. -/
def startSetup (conversationState : List Nat) : SetupEvent → SetupOutcome
  | .connFail => .returnNoExit
  | .converseFail => .stopFalseThenExit1
  | .sendFail => .stopFalseThenExit1
  | .allOk => .proceed (buildConfig conversationState)

/-- Value of the global `conversationState` after one event with result
`res` is handled: overwritten exactly when the event's `ConversationState`
is non-nil (line 214-216). -/
def stateAfter (st : List Nat) (res : ConverseResult) : List Nat :=
  match res.conversationState with
  | some cs => cs
  | none => st

/-- Playback writes performed while handling one event: the frame chunks of
its audio payload when one is present (lines 222-237). -/
def eventWrites (e : ConverseResponse) : List (List Nat) :=
  match e.audioOut with
  | some p => playbackChunks p
  | none => []

/-! Helper lemmas about the playback loop. -/

/-- The playback loop writes one frame per full `frameBytes`-byte block of
the payload: `⌊L / frameBytes⌋` writes in total. -/
theorem playbackChunks_length (p : List Nat) :
    (playbackChunks p).length = p.length / frameBytes := by
  induction p using playbackChunks.induct with
  | case1 p h =>
    rw [playbackChunks, dif_pos h]
    simp only [List.length_nil]
    simp only [frameBytes] at h ⊢
    omega
  | case2 p h ih =>
    rw [playbackChunks, dif_neg h]
    simp only [List.length_cons, ih, List.length_drop]
    simp only [frameBytes] at h ⊢
    omega

/-- The frames written by the playback loop, concatenated, are exactly the
longest whole-frame prefix of the payload: writes are sequential and in
original byte order, and a trailing remainder shorter than one frame is
dropped. -/
theorem playbackChunks_flatten (p : List Nat) :
    (playbackChunks p).flatten = p.take (frameBytes * (p.length / frameBytes)) := by
  induction p using playbackChunks.induct with
  | case1 p h =>
    rw [playbackChunks, dif_pos h]
    have hz : p.length / frameBytes = 0 := Nat.div_eq_of_lt h
    simp [hz]
  | case2 p h ih =>
    rw [playbackChunks, dif_neg h]
    simp only [List.flatten_cons, ih, List.length_drop]
    have harith : frameBytes * (p.length / frameBytes) =
        frameBytes + frameBytes * ((p.length - frameBytes) / frameBytes) := by
      simp only [frameBytes] at h ⊢
      omega
    rw [harith, List.take_add]

/-- A payload made of exactly one frame is written as that one frame. -/
theorem playbackChunks_one_frame (a : Nat) :
    playbackChunks (List.replicate frameBytes a) = [List.replicate frameBytes a] := by
  rw [playbackChunks, dif_neg (by rw [List.length_replicate]; exact lt_irrefl _)]
  rw [List.take_replicate, List.drop_replicate, Nat.sub_self, List.replicate_zero,
    min_self]
  rw [playbackChunks, dif_pos (by simp [frameBytes])]

/-- Full characterization of the loop on a single event that carries no
error, has a non-nil result, and no quit/exit transcript: the token is
stored, the payload played, and the ending determined by the event type and
the microphone mode. -/
theorem runLoop_single_event
    (st : List Nat) (e : ConverseResponse) (res : ConverseResult)
    (herr : e.error = none) (hres : e.result = some res)
    (hq1 : res.spokenRequestText ≠ "quit") (hq2 : res.spokenRequestText ≠ "exit") :
    runLoop st [.ok e] =
      if e.eventType = END_OF_UTTERANCE then
        ⟨stateAfter st res, [], 0, 1, .eouEnd, 1⟩
      else if res.microphoneMode = DIALOG_FOLLOW_ON then
        ⟨stateAfter st res, eventWrites e, 0, 0, .eofEnd, 1⟩
      else
        ⟨stateAfter st res, eventWrites e, 1, 1, .promptEnd, 1⟩ := by
  by_cases het : e.eventType = END_OF_UTTERANCE
  · simp [runLoop, herr, hres, hq1, hq2, het, stateAfter]
  · by_cases hc : res.microphoneMode = CLOSE_MICROPHONE
    · simp [runLoop, herr, hres, hq1, hq2, het, hc, stateAfter, eventWrites,
        CLOSE_MICROPHONE, DIALOG_FOLLOW_ON]
    · by_cases hf : res.microphoneMode = DIALOG_FOLLOW_ON
      · simp [runLoop, herr, hres, hq1, hq2, het, hc, hf, stateAfter, eventWrites,
          CLOSE_MICROPHONE, DIALOG_FOLLOW_ON]
      · simp [runLoop, herr, hres, hq1, hq2, het, hc, hf, stateAfter, eventWrites]

/-- Projection of `runLoop_single_event`: the final stored token. -/
theorem runLoop_single_finalState
    (st : List Nat) (e : ConverseResponse) (res : ConverseResult)
    (herr : e.error = none) (hres : e.result = some res)
    (hq1 : res.spokenRequestText ≠ "quit") (hq2 : res.spokenRequestText ≠ "exit") :
    (runLoop st [.ok e]).finalState = stateAfter st res := by
  rw [runLoop_single_event st e res herr hres hq1 hq2]
  split
  · rfl
  · split <;> rfl

/-- Projection of `runLoop_single_event`: the playback writes, for an event
that is not an `END_OF_UTTERANCE` event. -/
theorem runLoop_single_writes
    (st : List Nat) (e : ConverseResponse) (res : ConverseResult)
    (herr : e.error = none) (hres : e.result = some res)
    (hq1 : res.spokenRequestText ≠ "quit") (hq2 : res.spokenRequestText ≠ "exit")
    (het : e.eventType ≠ END_OF_UTTERANCE) :
    (runLoop st [.ok e]).writes = eventWrites e := by
  rw [runLoop_single_event st e res herr hres hq1 hq2, if_neg het]
  split <;> rfl

/-! Theorems settling the claims. -/

/-- Claim C1: an event whose transcript is exactly "quit" or "exit" makes the
receive loop run `stop(true)` — signal the mic, then `os.Exit(0)` — before
any other field of the event is acted on: the stored token is unchanged, no
playback write is performed, no prompt is issued, and no later item of the
stream is consumed. -/
theorem quit_transcript_exits_immediately
    (st : List Nat) (e : ConverseResponse) (res : ConverseResult)
    (rest : List RecvItem)
    (herr : e.error = none) (hres : e.result = some res)
    (hq : res.spokenRequestText = "quit" ∨ res.spokenRequestText = "exit") :
    runLoop st (.ok e :: rest) = ⟨st, [], 0, 1, .exit0, 1⟩ := by
  rcases hq with hq | hq <;> simp [runLoop, herr, hres, hq]

/-- Witness for C1: a concrete "quit" event, with a follow-up event behind
it, exits with code 0 consuming only the first item. -/
theorem quit_transcript_exits_immediately_witness :
    runLoop [3] [.ok ⟨none, 0, some [1, 2], some ⟨"quit", "", some [9], 2⟩⟩,
        .ok ⟨none, 1, none, none⟩] =
      ⟨[3], [], 0, 1, .exit0, 1⟩ :=
  quit_transcript_exits_immediately [3] _ _ _ rfl rfl (Or.inl rfl)

/-- Claim C2: when the receive loop stores a non-empty continuation token
`T` (a non-nil `ConversationState` on an event that does not quit), the
configuration message built for the next Turn carries exactly `T`; and a
configuration built from an empty stored state carries no token. -/
theorem stored_token_reaches_next_config
    (st T : List Nat) (e : ConverseResponse) (res : ConverseResult)
    (herr : e.error = none) (hres : e.result = some res)
    (hq1 : res.spokenRequestText ≠ "quit") (hq2 : res.spokenRequestText ≠ "exit")
    (hcs : res.conversationState = some T) (hT : T ≠ []) :
    (buildConfig (runLoop st [.ok e]).finalState).converseState = some T ∧
    (buildConfig []).converseState = none := by
  have hfin : (runLoop st [.ok e]).finalState = T := by
    rw [runLoop_single_finalState st e res herr hres hq1 hq2]
    simp [stateAfter, hcs]
  rw [hfin]
  have hpos : T.length > 0 := List.length_pos.mpr hT
  constructor
  · simp [buildConfig, hpos]
  · simp [buildConfig]

/-- Witness for C2: a Turn whose only event stores token `[7]` yields a next
configuration carrying `[7]`, and the empty state yields none. -/
theorem stored_token_reaches_next_config_witness :
    (buildConfig (runLoop [] [.ok ⟨none, 0, none,
        some ⟨"hello", "hi", some [7], 2⟩⟩]).finalState).converseState = some [7] ∧
    (buildConfig []).converseState = none :=
  stored_token_reaches_next_config [] [7] _ _ rfl rfl
    (by decide) (by decide) rfl (by decide)

/-- Claim C10: a present-but-empty `ConversationState` (non-nil, zero-length)
overwrites the stored token with the empty value, so the next Turn's
configuration carries no continuation token even when the state before the
event was non-empty. -/
theorem empty_token_clears_stored_state
    (st : List Nat) (e : ConverseResponse) (res : ConverseResult)
    (herr : e.error = none) (hres : e.result = some res)
    (hq1 : res.spokenRequestText ≠ "quit") (hq2 : res.spokenRequestText ≠ "exit")
    (hcs : res.conversationState = some []) :
    (runLoop st [.ok e]).finalState = [] ∧
    (buildConfig (runLoop st [.ok e]).finalState).converseState = none := by
  have hfin : (runLoop st [.ok e]).finalState = [] := by
    rw [runLoop_single_finalState st e res herr hres hq1 hq2]
    simp [stateAfter, hcs]
  exact ⟨hfin, by rw [hfin]; simp [buildConfig]⟩

/-- Witness for C10: starting from the non-empty stored token `[9, 9]`, an
event carrying an empty token clears the state and the next configuration
carries no token. -/
theorem empty_token_clears_stored_state_witness :
    (runLoop [9, 9] [.ok ⟨none, 0, none,
        some ⟨"hello", "", some [], 2⟩⟩]).finalState = [] ∧
    (buildConfig (runLoop [9, 9] [.ok ⟨none, 0, none,
        some ⟨"hello", "", some [], 2⟩⟩]).finalState).converseState = none :=
  empty_token_clears_stored_state [9, 9] _ _ rfl rfl
    (by decide) (by decide) rfl

/-- Claim C3: an event carrying an audio payload (non-nil result, no quit
transcript, not an `END_OF_UTTERANCE` event) produces exactly the playback
writes of `playbackChunks`: `⌊L / frameBytes⌋` sequential writes whose
concatenation is the whole-frame prefix of the payload; when `L` is a
multiple of `frameBytes` the concatenation is the whole payload, and a
payload shorter than one frame produces no write. -/
theorem audio_payload_playback
    (st : List Nat) (e : ConverseResponse) (res : ConverseResult)
    (p : List Nat)
    (herr : e.error = none) (hres : e.result = some res)
    (hq1 : res.spokenRequestText ≠ "quit") (hq2 : res.spokenRequestText ≠ "exit")
    (het : e.eventType ≠ END_OF_UTTERANCE) (hao : e.audioOut = some p) :
    (runLoop st [.ok e]).writes = playbackChunks p ∧
    (playbackChunks p).length = p.length / frameBytes ∧
    (playbackChunks p).flatten = p.take (frameBytes * (p.length / frameBytes)) ∧
    (p.length % frameBytes = 0 → (playbackChunks p).flatten = p) ∧
    (p.length < frameBytes → playbackChunks p = []) := by
  refine ⟨?_, playbackChunks_length p, playbackChunks_flatten p, ?_, ?_⟩
  · rw [runLoop_single_writes st e res herr hres hq1 hq2 het]
    simp [eventWrites, hao]
  · intro hmod
    rw [playbackChunks_flatten p, Nat.mul_div_cancel' (Nat.dvd_of_mod_eq_zero hmod),
      List.take_length]
  · intro hlt
    rw [playbackChunks, dif_pos hlt]

/-- Witness for C3: a 3-byte payload (shorter than one 16384-byte frame)
produces no playback write and is dropped. -/
theorem audio_payload_playback_witness :
    (runLoop [] [.ok ⟨none, 0, some [7, 7, 7],
        some ⟨"", "", none, 2⟩⟩]).writes = playbackChunks [7, 7, 7] ∧
    (playbackChunks [7, 7, 7]).length = [7, 7, 7].length / frameBytes ∧
    (playbackChunks [7, 7, 7]).flatten =
      [7, 7, 7].take (frameBytes * ([7, 7, 7].length / frameBytes)) ∧
    ([7, 7, 7].length % frameBytes = 0 → (playbackChunks [7, 7, 7]).flatten = [7, 7, 7]) ∧
    ([7, 7, 7].length < frameBytes → playbackChunks [7, 7, 7] = []) :=
  audio_payload_playback [] _ _ [7, 7, 7] rfl rfl
    (by decide) (by decide) (by decide) rfl

/-- Claim C4: a stream-level `Recv` failure, or an event carrying an error
field, hits `log.Fatalf`: the process exits (code 1) at once — no playback
write for that event, no prompt, no mic-stop signal, the stored token
untouched, and no later item of the stream consumed. -/
theorem receive_error_is_fatal
    (st : List Nat) (rest : List RecvItem) (it : RecvItem)
    (h : (∃ m, it = .fail m) ∨ ∃ e m, it = .ok e ∧ e.error = some m) :
    runLoop st (it :: rest) = ⟨st, [], 0, 0, .fatal, 1⟩ := by
  rcases h with ⟨m, rfl⟩ | ⟨e, m, rfl, he⟩
  · rfl
  · simp [runLoop, he]

/-- Witness for C4: the spec's scenario, an event stream consisting of the
single event with error field "x" (followed here by an audio event that is
never reached), terminates fatally with no playback writes. -/
theorem receive_error_is_fatal_witness :
    runLoop [] [.ok ⟨some "x", 0, none, none⟩,
        .ok ⟨none, 0, some (List.replicate 16384 1), some ⟨"", "", none, 2⟩⟩] =
      ⟨[], [], 0, 0, .fatal, 1⟩ :=
  receive_error_is_fatal [] _ _ (Or.inr ⟨_, "x", rfl, rfl⟩)

/-- Counterexample to claim C5 as stated: a Turn ended by `END_OF_UTTERANCE`
(mic signalled, `return` at lines 217-221) and a Turn ended by end-of-stream
(`break` at line 183, then `start` returns) both end without a quit/exit
transcript, yet neither issues the press-a-key prompt. -/
theorem turn_end_without_prompt :
    (runLoop [] [.ok ⟨none, 1, none, some ⟨"hello", "", none, 2⟩⟩]).ending = .eouEnd ∧
    (runLoop [] [.ok ⟨none, 1, none, some ⟨"hello", "", none, 2⟩⟩]).prompts = 0 ∧
    (runLoop [] []).ending = .eofEnd ∧
    (runLoop [] []).prompts = 0 :=
  ⟨rfl, rfl, rfl, rfl⟩

/-- Claim C5 (amended): the blocking press-a-key prompt is issued exactly
when the receive loop ends through `stop(false)` — a `CLOSE_MICROPHONE` or
unmanaged microphone mode; Turns ending at end-of-stream or
`END_OF_UTTERANCE` (and the quit and fatal endings) issue no prompt. -/
theorem prompt_iff_stop_false (st : List Nat) (stream : List RecvItem) :
    (runLoop st stream).prompts =
      if (runLoop st stream).ending = .promptEnd then 1 else 0 := by
  induction stream generalizing st with
  | nil => rfl
  | cons it rest ih =>
    cases it with
    | fail m => rfl
    | ok e =>
      cases herr : e.error with
      | some m => simp [runLoop, herr]
      | none =>
        cases hres : e.result with
        | none => simp [runLoop, herr, hres, ih]
        | some res =>
          by_cases hq : res.spokenRequestText = "quit" ∨ res.spokenRequestText = "exit"
          · rcases hq with hq | hq <;> simp [runLoop, herr, hres, hq]
          · push_neg at hq
            obtain ⟨hq1, hq2⟩ := hq
            by_cases het : e.eventType = END_OF_UTTERANCE
            · simp [runLoop, herr, hres, hq1, hq2, het]
            · by_cases hc : res.microphoneMode = CLOSE_MICROPHONE
              · simp [runLoop, herr, hres, hq1, hq2, het, hc,
                  CLOSE_MICROPHONE, DIALOG_FOLLOW_ON]
              · by_cases hf : res.microphoneMode = DIALOG_FOLLOW_ON
                · simp [runLoop, herr, hres, hq1, hq2, het, hc, hf, ih,
                    CLOSE_MICROPHONE, DIALOG_FOLLOW_ON]
                · simp [runLoop, herr, hres, hq1, hq2, het, hc, hf]

/-- Counterexample to claim C6 as stated: a connection failure (line 77) is
a session-setup failure, yet `start` merely logs and returns — the
`returnNoExit` outcome — so no exit with status 1 occurs on that path. -/
theorem conn_failure_no_exit1 :
    startSetup [] .connFail = .returnNoExit :=
  rfl

/-- Claim C6 (amended): a quit/exit transcript ends the process with code 0;
a connection failure logs and returns from `start` without any exit-status
call; a session-establishment or initial-send failure runs `stop(false)` —
whose leading mic-stop send has no matching receiver yet — before its
`os.Exit(1)` statement, so exit code 1 is not produced before `stop(false)`
completes; a successful setup sends the configuration built from the stored
token. -/
theorem exit_code_paths (st : List Nat) :
    startSetup st .connFail = .returnNoExit ∧
    startSetup st .converseFail = .stopFalseThenExit1 ∧
    startSetup st .sendFail = .stopFalseThenExit1 ∧
    startSetup st .allOk = .proceed (buildConfig st) ∧
    ∀ (e : ConverseResponse) (res : ConverseResult) (rest : List RecvItem),
      e.error = none → e.result = some res →
      (res.spokenRequestText = "quit" ∨ res.spokenRequestText = "exit") →
      (runLoop st (.ok e :: rest)).ending = .exit0 := by
  refine ⟨rfl, rfl, rfl, rfl, ?_⟩
  intro e res rest herr hres hq
  rcases hq with hq | hq <;> simp [runLoop, herr, hres, hq]

/-- Witness for the amended C6 at concrete inputs. -/
theorem exit_code_paths_witness :
    startSetup [] .connFail = .returnNoExit ∧
    startSetup [] .converseFail = .stopFalseThenExit1 ∧
    startSetup [] .sendFail = .stopFalseThenExit1 ∧
    startSetup [] .allOk = .proceed (buildConfig []) ∧
    (runLoop [] [.ok ⟨none, 0, none, some ⟨"exit", "", none, 0⟩⟩]).ending = .exit0 :=
  ⟨(exit_code_paths []).1, (exit_code_paths []).2.1, (exit_code_paths []).2.2.1,
    (exit_code_paths []).2.2.2.1,
    (exit_code_paths []).2.2.2.2 _ _ [] rfl rfl (Or.inr rfl)⟩

/-- Counterexample to claim C7 as stated: a stream with no error field and
no `CLOSE_MICROPHONE` mode whose first event carries a "quit" transcript
(with `DIALOG_FOLLOW_ON`) ends the loop at that first event by process
exit — not at an end-of-stream, end-of-utterance, or unknown-mode event —
and the following end-of-utterance event is never reached. -/
theorem quit_preempts_benign_stream :
    (runLoop [] [.ok ⟨none, 0, none, some ⟨"quit", "", none, 2⟩⟩,
        .ok ⟨none, 1, none, some ⟨"", "", none, 2⟩⟩]).ending = .exit0 ∧
    (runLoop [] [.ok ⟨none, 0, none, some ⟨"quit", "", none, 2⟩⟩,
        .ok ⟨none, 1, none, some ⟨"", "", none, 2⟩⟩]).consumed = 1 :=
  ⟨rfl, rfl⟩

/-- Claim C7 (amended): over a stream of events with no stream failure, no
error field, no `CLOSE_MICROPHONE` mode, and no quit/exit transcript, the
receive loop continues exactly until the first terminal event — a non-nil
result that either is an `END_OF_UTTERANCE` event or carries an unmanaged
microphone mode — or until end of stream when no terminal event exists, and
only those points end the loop. -/
theorem loop_runs_until_first_terminal
    (st : List Nat) (stream : List RecvItem)
    (hb : ∀ it ∈ stream, benignItem it = true) :
    ((runLoop st stream).ending = .eofEnd ∨ (runLoop st stream).ending = .eouEnd ∨
      (runLoop st stream).ending = .promptEnd) ∧
    (stream.any terminalItem = true →
      (runLoop st stream).consumed =
        (stream.takeWhile fun it => !terminalItem it).length + 1) ∧
    (stream.any terminalItem = false →
      (runLoop st stream).consumed = stream.length) ∧
    ((runLoop st stream).ending = .eofEnd ↔
      ∀ it ∈ stream, terminalItem it = false) := by
  induction stream generalizing st with
  | nil =>
    exact ⟨Or.inl rfl, by simp, fun _ => rfl, by simp [runLoop]⟩
  | cons it rest ih =>
    cases it with
    | fail m =>
      have := hb (.fail m) (by simp)
      simp [benignItem] at this
    | ok e =>
      have hbe := hb (.ok e) (by simp)
      have hbr : ∀ it ∈ rest, benignItem it = true := fun it hit => hb it (by simp [hit])
      cases herr : e.error with
      | some m => rw [benignItem, herr] at hbe; simp at hbe
      | none =>
        cases hres : e.result with
        | none =>
          have ht : terminalItem (.ok e) = false := by simp [terminalItem, hres]
          have hstep : runLoop st (.ok e :: rest) =
              ⟨(runLoop st rest).finalState, (runLoop st rest).writes,
                (runLoop st rest).prompts, (runLoop st rest).micStops,
                (runLoop st rest).ending, (runLoop st rest).consumed + 1⟩ := by
            simp [runLoop, herr, hres]
          obtain ⟨ihA, ihB1, ihB2, ihC⟩ := ih st hbr
          rw [hstep]
          refine ⟨ihA, ?_, ?_, ?_⟩
          · intro hany
            rw [List.any_cons, ht, Bool.false_or] at hany
            simp [List.takeWhile_cons, ht, ihB1 hany]
          · intro hany
            rw [List.any_cons, ht, Bool.false_or] at hany
            simp [ihB2 hany]
          · simp [List.forall_mem_cons, ht, ihC]
        | some res =>
          rw [benignItem, herr, hres] at hbe
          simp only [Option.isNone_none, Bool.true_and, Bool.and_eq_true,
            bne_iff_ne, ne_eq] at hbe
          obtain ⟨⟨hq1, hq2⟩, hmc⟩ := hbe
          by_cases het : e.eventType = END_OF_UTTERANCE
          · have ht : terminalItem (.ok e) = true := by
              simp [terminalItem, hres, het]
            have hstep : runLoop st (.ok e :: rest) =
                ⟨(match res.conversationState with | some cs => cs | none => st),
                  [], 0, 1, .eouEnd, 1⟩ := by
              simp [runLoop, herr, hres, hq1, hq2, het]
            rw [hstep]
            refine ⟨Or.inr (Or.inl rfl), ?_, ?_, ?_⟩
            · intro _
              simp [List.takeWhile_cons, ht]
            · intro hany
              rw [List.any_cons, ht] at hany
              simp at hany
            · simp [List.forall_mem_cons, ht]
          · by_cases hf : res.microphoneMode = DIALOG_FOLLOW_ON
            · have ht : terminalItem (.ok e) = false := by
                simp [terminalItem, hres, het, hf, DIALOG_FOLLOW_ON, CLOSE_MICROPHONE]
              have hstep : runLoop st (.ok e :: rest) =
                  ⟨(runLoop (match res.conversationState with
                      | some cs => cs | none => st) rest).finalState,
                    (match e.audioOut with
                      | some p => playbackChunks p | none => []) ++
                      (runLoop (match res.conversationState with
                        | some cs => cs | none => st) rest).writes,
                    (runLoop (match res.conversationState with
                      | some cs => cs | none => st) rest).prompts,
                    (runLoop (match res.conversationState with
                      | some cs => cs | none => st) rest).micStops,
                    (runLoop (match res.conversationState with
                      | some cs => cs | none => st) rest).ending,
                    (runLoop (match res.conversationState with
                      | some cs => cs | none => st) rest).consumed + 1⟩ := by
                simp [runLoop, herr, hres, hq1, hq2, het, hf,
                  CLOSE_MICROPHONE, DIALOG_FOLLOW_ON]
              obtain ⟨ihA, ihB1, ihB2, ihC⟩ :=
                ih (match res.conversationState with | some cs => cs | none => st) hbr
              rw [hstep]
              refine ⟨ihA, ?_, ?_, ?_⟩
              · intro hany
                rw [List.any_cons, ht, Bool.false_or] at hany
                simp [List.takeWhile_cons, ht, ihB1 hany]
              · intro hany
                rw [List.any_cons, ht, Bool.false_or] at hany
                simp [ihB2 hany]
              · simp [List.forall_mem_cons, ht, ihC]
            · have ht : terminalItem (.ok e) = true := by
                simp [terminalItem, hres, het, hf, hmc]
              have hstep : runLoop st (.ok e :: rest) =
                  ⟨(match res.conversationState with | some cs => cs | none => st),
                    (match e.audioOut with
                      | some p => playbackChunks p | none => []),
                    1, 1, .promptEnd, 1⟩ := by
                simp [runLoop, herr, hres, hq1, hq2, het, hmc, hf]
              rw [hstep]
              refine ⟨Or.inr (Or.inr rfl), ?_, ?_, ?_⟩
              · intro _
                simp [List.takeWhile_cons, ht]
              · intro hany
                rw [List.any_cons, ht] at hany
                simp at hany
              · simp [List.forall_mem_cons, ht]

/-- Witness for the amended C7: a nil-result event followed by an
`END_OF_UTTERANCE` event, a benign stream whose first terminal event is the
second item. -/
theorem loop_runs_until_first_terminal_witness :
    ((runLoop [] [.ok ⟨none, 0, none, none⟩,
        .ok ⟨none, 1, none, some ⟨"", "", none, 2⟩⟩]).ending = .eofEnd ∨
      (runLoop [] [.ok ⟨none, 0, none, none⟩,
        .ok ⟨none, 1, none, some ⟨"", "", none, 2⟩⟩]).ending = .eouEnd ∨
      (runLoop [] [.ok ⟨none, 0, none, none⟩,
        .ok ⟨none, 1, none, some ⟨"", "", none, 2⟩⟩]).ending = .promptEnd) ∧
    ([RecvItem.ok ⟨none, 0, none, none⟩,
        .ok ⟨none, 1, none, some ⟨"", "", none, 2⟩⟩].any terminalItem = true →
      (runLoop [] [.ok ⟨none, 0, none, none⟩,
        .ok ⟨none, 1, none, some ⟨"", "", none, 2⟩⟩]).consumed =
        ([RecvItem.ok ⟨none, 0, none, none⟩,
          .ok ⟨none, 1, none, some ⟨"", "", none, 2⟩⟩].takeWhile
            fun it => !terminalItem it).length + 1) ∧
    ([RecvItem.ok ⟨none, 0, none, none⟩,
        .ok ⟨none, 1, none, some ⟨"", "", none, 2⟩⟩].any terminalItem = false →
      (runLoop [] [.ok ⟨none, 0, none, none⟩,
        .ok ⟨none, 1, none, some ⟨"", "", none, 2⟩⟩]).consumed = 2) ∧
    ((runLoop [] [.ok ⟨none, 0, none, none⟩,
        .ok ⟨none, 1, none, some ⟨"", "", none, 2⟩⟩]).ending = .eofEnd ↔
      ∀ it ∈ [RecvItem.ok ⟨none, 0, none, none⟩,
        .ok ⟨none, 1, none, some ⟨"", "", none, 2⟩⟩], terminalItem it = false) :=
  loop_runs_until_first_terminal [] _ (by decide)

/-- Counterexample to claim C8 as stated: two events identical except for
the event-type field, both carrying a one-frame audio payload; on the
`END_OF_UTTERANCE` event the payload is not played (the loop returns at
lines 217-221 before the audio branch), on the other it is: the event-type
field's value suppresses the processing of the audio field. -/
theorem eou_suppresses_audio_processing :
    (runLoop [] [.ok ⟨none, 1, some (List.replicate frameBytes 5),
        some ⟨"", "", none, 2⟩⟩]).writes = [] ∧
    (runLoop [] [.ok ⟨none, 0, some (List.replicate frameBytes 5),
        some ⟨"", "", none, 2⟩⟩]).writes = [List.replicate frameBytes 5] := by
  constructor
  · rfl
  · rw [runLoop_single_writes [] _ ⟨"", "", none, 2⟩ rfl rfl (by decide) (by decide)
      (by decide)]
    simp [eventWrites, playbackChunks_one_frame]

/-- Claim C8 (amended): for an event with a non-nil result, no quit/exit
transcript, and an event type other than `END_OF_UTTERANCE`, each remaining
field is processed independently of the others: a non-nil continuation token
is stored (else the state is kept), a present audio payload is played in
full frames, and the microphone mode decides the ending — `DIALOG_FOLLOW_ON`
continues, anything else ends the Turn.  A quit/exit transcript, an
`END_OF_UTTERANCE` event type, or a nil result suppresses the processing of
the fields that the source examines after it. -/
theorem fields_processed_unless_preempted
    (st : List Nat) (e : ConverseResponse) (res : ConverseResult)
    (herr : e.error = none) (hres : e.result = some res)
    (hq1 : res.spokenRequestText ≠ "quit") (hq2 : res.spokenRequestText ≠ "exit")
    (het : e.eventType ≠ END_OF_UTTERANCE) :
    (runLoop st [.ok e]).finalState = stateAfter st res ∧
    (runLoop st [.ok e]).writes = eventWrites e ∧
    (runLoop st [.ok e]).ending =
      (if res.microphoneMode = DIALOG_FOLLOW_ON then TurnEnd.eofEnd
       else TurnEnd.promptEnd) := by
  refine ⟨runLoop_single_finalState st e res herr hres hq1 hq2,
    runLoop_single_writes st e res herr hres hq1 hq2 het, ?_⟩
  rw [runLoop_single_event st e res herr hres hq1 hq2, if_neg het]
  by_cases hf : res.microphoneMode = DIALOG_FOLLOW_ON
  · rw [if_pos hf, if_pos hf]
  · rw [if_neg hf, if_neg hf]

/-- Witness for the amended C8: an event carrying a transcript, a response
text, a token, a short audio payload and `DIALOG_FOLLOW_ON` together. -/
theorem fields_processed_unless_preempted_witness :
    (runLoop [4] [.ok ⟨none, 0, some [1, 2, 3],
        some ⟨"hi", "ok", some [5], 2⟩⟩]).finalState =
      stateAfter [4] ⟨"hi", "ok", some [5], 2⟩ ∧
    (runLoop [4] [.ok ⟨none, 0, some [1, 2, 3],
        some ⟨"hi", "ok", some [5], 2⟩⟩]).writes =
      eventWrites ⟨none, 0, some [1, 2, 3], some ⟨"hi", "ok", some [5], 2⟩⟩ ∧
    (runLoop [4] [.ok ⟨none, 0, some [1, 2, 3],
        some ⟨"hi", "ok", some [5], 2⟩⟩]).ending =
      (if (⟨"hi", "ok", some [5], 2⟩ : ConverseResult).microphoneMode = DIALOG_FOLLOW_ON
       then TurnEnd.eofEnd else TurnEnd.promptEnd) :=
  fields_processed_unless_preempted [4] _ _ rfl rfl (by decide) (by decide) (by decide)

/-- Counterexample to claim C9 as stated: a nil-result event is not treated
as an end-of-Turn signal — the loop logs and continues, and the following
event is still processed (here it determines the ending). -/
theorem nil_result_does_not_end_turn :
    (runLoop [] [.ok ⟨none, 0, none, none⟩,
        .ok ⟨none, 0, none, some ⟨"quit", "", none, 0⟩⟩]).consumed = 2 ∧
    (runLoop [] [.ok ⟨none, 0, none, none⟩,
        .ok ⟨none, 0, none, some ⟨"quit", "", none, 0⟩⟩]).ending = .exit0 :=
  ⟨rfl, rfl⟩

/-- Claim C9 (amended): both protocol-shape surprises are logged and neither
crashes the process, but they differ: a nil result logs "nil result" and the
loop continues with the next event unchanged, while an unmanaged microphone
mode (neither `CLOSE_MICROPHONE` nor `DIALOG_FOLLOW_ON`, on an event that
did not already end the Turn) logs the mode and ends the Turn through
`stop(false)`. -/
theorem protocol_surprise_handling (st : List Nat) (rest : List RecvItem) :
    (∀ e : ConverseResponse, e.error = none → e.result = none →
      runLoop st (.ok e :: rest) =
        ⟨(runLoop st rest).finalState, (runLoop st rest).writes,
          (runLoop st rest).prompts, (runLoop st rest).micStops,
          (runLoop st rest).ending, (runLoop st rest).consumed + 1⟩) ∧
    (∀ (e : ConverseResponse) (res : ConverseResult),
      e.error = none → e.result = some res →
      res.spokenRequestText ≠ "quit" → res.spokenRequestText ≠ "exit" →
      e.eventType ≠ END_OF_UTTERANCE →
      res.microphoneMode ≠ CLOSE_MICROPHONE →
      res.microphoneMode ≠ DIALOG_FOLLOW_ON →
      (runLoop st (.ok e :: rest)).ending = .promptEnd ∧
      (runLoop st (.ok e :: rest)).prompts = 1 ∧
      (runLoop st (.ok e :: rest)).consumed = 1) := by
  constructor
  · intro e herr hres
    simp [runLoop, herr, hres]
  · intro e res herr hres hq1 hq2 het hc hf
    refine ⟨?_, ?_, ?_⟩ <;> simp [runLoop, herr, hres, hq1, hq2, het, hc, hf]

/-- Witness for the amended C9: a nil-result event continues into the empty
remainder of the stream; an unknown microphone mode 5 ends the Turn with the
prompt. -/
theorem protocol_surprise_handling_witness :
    runLoop [] [.ok ⟨none, 0, none, none⟩] =
      ⟨(runLoop ([] : List Nat) ([] : List RecvItem)).finalState,
        (runLoop ([] : List Nat) ([] : List RecvItem)).writes,
        (runLoop ([] : List Nat) ([] : List RecvItem)).prompts,
        (runLoop ([] : List Nat) ([] : List RecvItem)).micStops,
        (runLoop ([] : List Nat) ([] : List RecvItem)).ending,
        (runLoop ([] : List Nat) ([] : List RecvItem)).consumed + 1⟩ ∧
    ((runLoop [] [.ok ⟨none, 0, none, some ⟨"", "", none, 5⟩⟩]).ending = .promptEnd ∧
      (runLoop [] [.ok ⟨none, 0, none, some ⟨"", "", none, 5⟩⟩]).prompts = 1 ∧
      (runLoop [] [.ok ⟨none, 0, none, some ⟨"", "", none, 5⟩⟩]).consumed = 1) :=
  ⟨(protocol_surprise_handling [] []).1 _ rfl rfl,
    (protocol_surprise_handling [] []).2 _ _ rfl rfl (by decide) (by decide)
      (by decide) (by decide) (by decide)⟩

end OkGo
